import Mathlib

/-!
Shallow embedding of the `lightning-integration` node-adapter layer:
`ElectrumNode` (electrumutils.py), `LndNode` (lnd.py) and the polling
helpers `wait_for` / `generate_until` (test.py).

Python byte strings are `List Nat` (one entry per byte), Python `str`
values are `List Nat` (one entry per character).  Where Python's dynamic
typing distinguishes `str` from `bytes` inside one container (the gossip
node set of `ElectrumNode.getnodes`), elements are wrapped in the tagged
type `PyObj`, whose equality mirrors Python's: a `str` never equals a
`bytes`.  Exceptions become `Except PyErr` results, and a call that
mutates external state returns the list of state-changing operations it
performed.  Wall-clock waiting is modelled by a step counter: each
predicate invocation of a polling loop is indexed by the time at which it
happens, and `time.sleep(interval)` advances the counter by `interval`.
-/

namespace LightningIntegration

/-- A Python byte string: the list of its byte values. -/
abbrev Bytes := List Nat

/-- A Python text string: the list of its character codes. -/
abbrev PyStr := List Nat

/-- The Python exceptions the embedded adapter code can raise. -/
inductive PyErr where
  | stopIteration
  | assertionError
  | keyError
  | valueError
  | nameError
  | queueEmpty
  | rpcError
  deriving DecidableEq, Repr

/-- A Python value that is either a `str` or a `bytes`.  Python compares
them unequal even when the character content coincides, which matters for
set membership in `ElectrumNode.getnodes`. -/
inductive PyObj where
  | pystr (s : PyStr) : PyObj
  | pybytes (b : Bytes) : PyObj
  deriving DecidableEq, Repr

/-- `binascii.hexlify`: each byte becomes its two hex digits (we record the
digit values; the exact character codes are irrelevant to the claims). -/
def hexlify (x : Bytes) : PyStr :=
  x.flatMap fun b => [b / 16, b % 16]

/-- `bh2u = lambda x: binascii.hexlify(x).decode('ascii')`
(electrumutils.py:26): hex-encodes a byte string into a `str`. -/
def bh2u (x : Bytes) : PyObj :=
  PyObj.pystr (hexlify x)

/-- `bytes.fromhex`: turns consecutive pairs of hex digits back into bytes.
The adapters only apply it to well-formed even-length hex strings produced
by `bh2u`/`hexlify`. -/
def bytesFromHex : PyStr → Bytes
  | d1 :: d2 :: rest => (d1 * 16 + d2) :: bytesFromHex rest
  | _ => []

/-- One row of electrum's gossip channel database
(`channel_db._id_to_channel_info.values()`): the two endpoint pubkeys as
raw bytes. -/
structure ChannelInfo where
  node_id_1 : Bytes
  node_id_2 : Bytes
  deriving DecidableEq, Repr

/-- Python `set.remove`: removes the element, raising `KeyError` when it is
absent from the set. -/
def pysetRemove (s : Finset PyObj) (x : PyObj) : Except PyErr (Finset PyObj) :=
  if x ∈ s then Except.ok (s.erase x) else Except.error PyErr.keyError

/-- The node set accumulated by the loop of `ElectrumNode.getnodes`
(electrumutils.py:188-191): for every channel info, `bh2u` of both endpoint
pubkeys is added to a Python set. -/
def electrumGossipNodes : List ChannelInfo → Finset PyObj
  | [] => ∅
  | ci :: rest =>
      insert (bh2u ci.node_id_1)
        (insert (bh2u ci.node_id_2) (electrumGossipNodes rest))

/-- `ElectrumNode.getnodes` (electrumutils.py:184-193): builds the set of
hex-string pubkeys of the gossip graph, then executes
`nodes.remove(self.wallet.lnworker.node_keypair.pubkey)` — note the removed
element is the node's raw `bytes` pubkey, not its `bh2u` hex string. -/
def ElectrumNode.getnodes (channel_infos : List ChannelInfo)
    (node_keypair_pubkey : Bytes) : Except PyErr (Finset PyObj) :=
  pysetRemove (electrumGossipNodes channel_infos)
    (PyObj.pybytes node_keypair_pubkey)

/-- `LndNode.getnodes` (lnd.py:177-181):
`set([n.pub_key for n in rep.nodes]) - set([self.id()])`. -/
def LndNode.getnodes (graph_node_pubkeys : List PyStr) (self_id : PyStr) :
    Finset PyStr :=
  graph_node_pubkeys.toFinset \ {self_id}

/-- `ElectrumNode.getchannels` (electrumutils.py:175-182): a Python set into
which both orientations of every gossip channel are inserted. -/
def ElectrumNode.getchannels : List ChannelInfo → Finset (PyObj × PyObj)
  | [] => ∅
  | ci :: rest =>
      insert (bh2u ci.node_id_1, bh2u ci.node_id_2)
        (insert (bh2u ci.node_id_2, bh2u ci.node_id_1)
          (ElectrumNode.getchannels rest))

/-- One edge of lnd's `DescribeGraph` response. -/
structure LndEdge where
  node1_pub : PyStr
  node2_pub : PyStr
  deriving DecidableEq, Repr

/-- `LndNode.getchannels` (lnd.py:167-175): a list to which both
orientations of every graph edge are appended, in iteration order. -/
def LndNode.getchannels : List LndEdge → List (PyStr × PyStr)
  | [] => []
  | e :: rest =>
      (e.node1_pub, e.node2_pub) :: (e.node2_pub, e.node1_pub) ::
        LndNode.getchannels rest

/-- An electrum lightning channel as `ElectrumNode` reads it: the remote
node's pubkey (`chan.node_id`, raw bytes), the remote-imposed CSV delay
(`chan.config[REMOTE].to_self_delay`), the funding tx id
(`chan.funding_outpoint.txid`) and the coarse state string returned by
`chan.get_state()`. -/
structure Chan where
  node_id : Bytes
  to_self_delay : Nat
  funding_txid : PyStr
  state : String
  deriving DecidableEq, Repr

/-- `ElectrumNode.chan` (electrumutils.py:140-143):
`next(iter(self.wallet.lnworker.channels.values()))` takes the first
channel of the wallet's channel map, raising `StopIteration` when the map
is empty; then `assert chan.node_id == bytes.fromhex(node_id)` raises
`AssertionError` when that first channel is with a different remote. -/
def ElectrumNode.chan (channels : List Chan) (node_id : PyStr) :
    Except PyErr Chan :=
  match channels with
  | [] => Except.error PyErr.stopIteration
  | c :: _ =>
      if c.node_id = bytesFromHex node_id then Except.ok c
      else Except.error PyErr.assertionError

/-- `ElectrumNode.check_channel` (electrumutils.py:166-173): calls
`self.chan(remote.id())` guarded by `except StopIteration: return False`;
every other exception (in particular the `AssertionError` from `chan`)
propagates; on success returns `chan.get_state() == "OPEN"`. -/
def ElectrumNode.check_channel (channels : List Chan) (remote_id : PyStr) :
    Except PyErr Bool :=
  match ElectrumNode.chan channels remote_id with
  | Except.error PyErr.stopIteration => Except.ok false
  | Except.error e => Except.error e
  | Except.ok c => Except.ok (decide (c.state = "OPEN"))

/-- One entry of lnd's `ListChannels` response. -/
structure LndChannel where
  remote_pubkey : PyStr
  active : Bool
  deriving DecidableEq, Repr

/-- `LndNode._channel_with_remote` (lnd.py:116-125): builds
`{c.remote_pubkey: c for c in channels}` (later entries win) and returns
the channel keyed by `remote.id()`, or Python `False` (here `none`) when
the key is absent. -/
def LndNode.channel_with_remote (channels : List LndChannel)
    (remote_id : PyStr) : Option LndChannel :=
  channels.reverse.find? fun c => c.remote_pubkey = remote_id

/-- `LndNode.check_channel` (lnd.py:127-134): `False` when
`_channel_with_remote` found nothing, else the channel's `active` flag. -/
def LndNode.check_channel (channels : List LndChannel) (remote_id : PyStr) :
    Bool :=
  match LndNode.channel_with_remote channels remote_id with
  | none => false
  | some c => c.active

/-- `ElectrumNode.openchannel` (electrumutils.py:130-138): after the wallet
has opened the channel, `self.chan(node_id)` looks it up (the channel list
is the wallet's channel map after the open call) and the pair
`(chan.funding_outpoint.txid, chan.config[REMOTE].to_self_delay)` is
returned. -/
def ElectrumNode.openchannel (channels : List Chan) (node_id : PyStr)
    (satoshis : Nat) : Except PyErr (Option (PyStr × Nat)) :=
  match ElectrumNode.chan channels node_id with
  | Except.error e => Except.error e
  | Except.ok c => Except.ok (some (c.funding_txid, c.to_self_delay))

/-- `LndNode.openchannel` (lnd.py:152-165): raises `ValueError` when
`node_id` is not among the connected peers; otherwise it issues the
`OpenChannel` RPC, sleeps 5 seconds, and falls off the end of the function
— Python returns `None`, not a `(fundingTxId, csvDelay)` pair. -/
def LndNode.openchannel (peer_pubkeys : List PyStr) (node_id : PyStr)
    (satoshis : Nat) : Except PyErr (Option (PyStr × Nat)) :=
  if node_id ∈ peer_pubkeys then Except.ok none
  else Except.error PyErr.valueError

/-- lnd's `GetInfo` RPC response, as far as the adapter reads it. -/
structure GetInfoResponse where
  identity_pubkey : PyStr
  block_height : Nat
  deriving DecidableEq, Repr

/-- `LndNode.ping` (lnd.py:96-106): issues `GetInfo`; `return True` on
success, and `except Exception: ... return False` converts any error into
`False`.  The transport outcome is the `getInfo` argument. -/
def LndNode.ping (getInfo : Except PyErr GetInfoResponse) :
    Except PyErr Bool :=
  match getInfo with
  | Except.ok _ => Except.ok true
  | Except.error _ => Except.ok false

/-- `ElectrumNode.ping` (electrumutils.py:162-164): logs and returns `True`
unconditionally; it performs no transport call at all. -/
def ElectrumNode.ping : Except PyErr Bool :=
  Except.ok true

/-- The loop body of `wait_for` (test.py:44-49).  `success t` is the
predicate invocation happening at time `t` (seconds after `start_time`);
a raised exception propagates out of the `while` condition.  The loop
continues while the predicate is false and `t < timeout`, sleeping
`interval` seconds per round; the result is the time at which the loop
exits (or the propagated exception).  `fuel` bounds the recursion and is
chosen large enough for every `interval ≥ 1`. -/
def wait_for_loop (success : Nat → Except PyErr Bool)
    (timeout interval : Nat) : Nat → Nat → Except PyErr Nat
  | _, 0 => Except.error PyErr.valueError
  | t, fuel + 1 =>
      match success t with
      | Except.error e => Except.error e
      | Except.ok true => Except.ok t
      | Except.ok false =>
          if t < timeout then
            wait_for_loop success timeout interval (t + interval) fuel
          else Except.ok t

/-- `wait_for` (test.py:44-49): busy-waits on `success`, then raises
`ValueError` when the loop exited by timeout
(`if time.time() > start_time + timeout`). -/
def wait_for (success : Nat → Except PyErr Bool) (timeout interval : Nat) :
    Except PyErr Unit :=
  match wait_for_loop success timeout interval 0 (timeout + 1) with
  | Except.error e => Except.error e
  | Except.ok t =>
      if timeout < t then Except.error PyErr.valueError else Except.ok ()

/-- The `for i in range(blocks)` loop of `generate_until` (test.py:61-75),
with `success k` the predicate invocation of round `k`: each round sleeps,
evaluates the predicate (a raised exception propagates), returns on true
and otherwise mines one block; after the last round one final evaluation
either succeeds or raises `ValueError`. -/
def generate_until_loop (success : Nat → Except PyErr Bool) :
    Nat → Nat → Except PyErr Unit
  | 0, k =>
      match success k with
      | Except.error e => Except.error e
      | Except.ok true => Except.ok ()
      | Except.ok false => Except.error PyErr.valueError
  | n + 1, k =>
      match success k with
      | Except.error e => Except.error e
      | Except.ok true => Except.ok ()
      | Except.ok false => generate_until_loop success n (k + 1)

/-- `generate_until` (test.py:61-75) with its default of `blocks` mining
rounds before the final check. -/
def generate_until (success : Nat → Except PyErr Bool) (blocks : Nat) :
    Except PyErr Unit :=
  generate_until_loop success blocks 0

/-- The `watch_queue` coroutine spawned by `ElectrumNode.force_close`
(electrumutils.py:249-257): it drains the watcher's `tx_queue`, skips any
encumbered transaction already in its `seen` set, and forwards the rest to
the FIFO `broadcasted_encumbered_txs` queue in arrival order.  `seen` is
the set accumulated so far, the list argument the transactions still to be
read from `tx_queue`. -/
def watch_queue_loop (seen : List Bytes) : List Bytes → List Bytes
  | [] => []
  | e_tx :: rest =>
      if e_tx ∈ seen then watch_queue_loop seen rest
      else e_tx :: watch_queue_loop (e_tx :: seen) rest

/-- The contents of `broadcasted_encumbered_txs` after `watch_queue` has
processed the given broadcast sequence, starting from an empty `seen`
set. -/
def ElectrumNode.watch_queue (tx_queue : List Bytes) : List Bytes :=
  watch_queue_loop [] tx_queue

/-- `ElectrumNode.get_published_e_tx` (electrumutils.py:241-242):
`self.broadcasted_encumbered_txs.get(timeout=30)` pops the front of the
FIFO queue, raising `queue.Empty` when nothing arrives in time.  Returns
the delivered event together with the remaining queue. -/
def ElectrumNode.get_published_e_tx (broadcasted_encumbered_txs : List Bytes) :
    Except PyErr (Bytes × List Bytes) :=
  match broadcasted_encumbered_txs with
  | [] => Except.error PyErr.queueEmpty
  | e_tx :: rest => Except.ok (e_tx, rest)

/-- A milestone yielded by the `force_close` generator: the closing
transaction id from `force_close_channel`, or the value of
`item.all_done.wait()` (asyncio's `Event.wait` returns `True`). -/
inductive FCItem where
  | closing_txid (txid : PyStr)
  | all_done (b : Bool)
  deriving DecidableEq, Repr

/-- The generator body of `ElectrumNode.force_close`
(electrumutils.py:244-261) as a lazy sequence: position `n` is what the
`n`-th `next()` call observes.  `close_result` is the outcome of
`force_close_channel(...).result(5)` (first `yield`), `all_done_result`
that of `item.all_done.wait(...).result(30)` (second `yield`); a raised
exception at a position propagates to that `next()` call, and past the
second yield the generator is exhausted (`none`, Python `StopIteration`). -/
def ElectrumNode.force_close (close_result : Except PyErr PyStr)
    (all_done_result : Except PyErr Bool) : Nat → Except PyErr (Option FCItem)
  | 0 =>
      match close_result with
      | Except.error e => Except.error e
      | Except.ok txid => Except.ok (some (FCItem.closing_txid txid))
  | 1 =>
      match close_result with
      | Except.error e => Except.error e
      | Except.ok _ =>
          match all_done_result with
          | Except.error e => Except.error e
          | Except.ok b => Except.ok (some (FCItem.all_done b))
  | _ + 2 => Except.ok none

/-- The wallet view `ElectrumNode.addfunds` reads:
`get_unused_address()` (possibly `None`) and `get_addr_balance(addr)`,
the triple `(matured, unconfirmed, unmatured)` of Python integers —
`unconfirmed` can be negative when an unconfirmed transaction spends from
the address. -/
structure ElectrumWallet where
  unused_address : Option Nat
  addr_balance : Nat → Int × Int × Int

/-- A state-changing call `addfunds` makes against the chain oracle
(`bitcoind.rpc`). -/
inductive ChainOp where
  | sendtoaddress (addr : Nat) (satoshis : Nat)
  | generate (n : Nat)
  deriving DecidableEq, Repr

/-- `ElectrumNode.addfunds` (electrumutils.py:145-160): asserts that an
unused address exists and that its `matured + unconfirmed + unmatured`
balance sum is zero, then (and only then) calls
`bitcoind.rpc.sendtoaddress` and `bitcoind.rpc.generate(1)`.  The result is
the raised exception, if any, together with the chain-oracle calls made;
the trailing settle loop only re-reads balances and mutates nothing. -/
def ElectrumNode.addfunds (wallet : ElectrumWallet) (satoshis : Nat) :
    Option PyErr × List ChainOp :=
  match wallet.unused_address with
  | none => (some PyErr.assertionError, [])
  | some addr =>
      match wallet.addr_balance addr with
      | (matured, unconfirmed, unmatured) =>
          if matured + unconfirmed + unmatured = 0 then
            (none, [ChainOp.sendtoaddress addr satoshis, ChainOp.generate 1])
          else (some PyErr.assertionError, [])

/-- The lnd daemon process state the adapter holds (`self.daemon`); the
rpc port is what `restart` would pass to the undefined `LndRpc`. -/
structure LndDaemon where
  rpc_port : Nat
  deriving DecidableEq, Repr

/-- The `LndNode` adapter state relevant to identity: the memoized
`self.myid` (initialized to `None` in `__init__`, lnd.py:88) and the
daemon. -/
structure LndNode where
  myid : Option PyStr
  daemon : LndDaemon
  deriving DecidableEq, Repr

/-- `LndNode.id` (lnd.py:91-94): on the first call resolves
`self.info()['id']` (the `info_id` argument, read from the running daemon)
and stores it in `self.myid`; every later call returns the memoized value
without consulting the daemon. -/
def LndNode.id (n : LndNode) (info_id : PyStr) : PyStr × LndNode :=
  match n.myid with
  | some i => (i, n)
  | none => (info_id, { n with myid := some info_id })

/-- `LndNode.restart` (lnd.py:211-215): stops the daemon, sleeps 5s,
starts it again (yielding the `restarted` daemon state) and then executes
`self.rpc = LndRpc(self.daemon.rpc_port)` — `LndRpc` is an undefined name
in lnd.py, so a `NameError` is raised after the daemon restarted; `myid`
is never touched. -/
def LndNode.restart (n : LndNode) (restarted : LndDaemon) :
    LndNode × Option PyErr :=
  ({ n with daemon := restarted }, some PyErr.nameError)

/-- An identity-relevant operation performed on an `LndNode` handle. -/
inductive LndOp where
  | callId (info_id : PyStr)
  | callRestart (restarted : LndDaemon)
  deriving DecidableEq, Repr

/-- The handle state after one operation. -/
def LndNode.step (n : LndNode) : LndOp → LndNode
  | LndOp.callId info_id => (LndNode.id n info_id).2
  | LndOp.callRestart restarted => (LndNode.restart n restarted).1

/-- The handle state after a sequence of `id`/`restart` calls. -/
def LndNode.run (n : LndNode) : List LndOp → LndNode
  | [] => n
  | op :: ops => LndNode.run (LndNode.step n op) ops

/-- The `ElectrumDaemon` wrapper state (electrumutils.py:73-79): the wallet
directory it serves (`electrumx.directory`) and the lightning port. -/
structure ElectrumDaemon where
  directory : Nat
  port : Nat
  deriving DecidableEq, Repr

/-- The `ElectrumNode` adapter state relevant to identity
(electrumutils.py:109-115): the ElectrumX directory and lightning port
fixed at construction, and the current daemon. -/
structure ElectrumNode where
  electrumx_directory : Nat
  lightning_port : Nat
  daemon : ElectrumDaemon
  deriving DecidableEq, Repr

/-- `ElectrumNode.id` (electrumutils.py:127-128):
`bh2u(self.wallet.lnworker.node_keypair.pubkey)`, recomputed on every call
from the daemon's wallet.  Modelled from the spec: the electrum `Daemon`
and `Wallet` classes live in the external electrum library, not in this
repository; the spec states that restart preserves on-disk wallet state,
so the keypair pubkey the daemon's wallet carries is a function `walletOf`
of the daemon's wallet directory. -/
def ElectrumNode.id (walletOf : Nat → Bytes) (n : ElectrumNode) : PyObj :=
  bh2u (walletOf n.daemon.directory)

/-- `ElectrumNode.restart` (electrumutils.py:226-231): stops the daemon,
sleeps 5s, and replaces it by
`ElectrumDaemon(self.electrumx, self.lightning_port)` started over the
same ElectrumX directory. -/
def ElectrumNode.restart (n : ElectrumNode) : ElectrumNode :=
  { n with
    daemon :=
      { directory := n.electrumx_directory, port := n.lightning_port } }

/-! ### Helper lemmas -/

/-- Every element of the gossip node set built by `ElectrumNode.getnodes`
is a hex `str` produced by `bh2u`, never a raw `bytes` value. -/
theorem mem_electrumGossipNodes_pystr (channel_infos : List ChannelInfo)
    (x : PyObj) (hx : x ∈ electrumGossipNodes channel_infos) :
    ∃ s, x = PyObj.pystr s := by
  induction channel_infos with
  | nil => simp [electrumGossipNodes] at hx
  | cons ci rest ih =>
      simp only [electrumGossipNodes, Finset.mem_insert] at hx
      rcases hx with h | h | h
      · exact ⟨hexlify ci.node_id_1, h⟩
      · exact ⟨hexlify ci.node_id_2, h⟩
      · exact ih h

/-- Once `myid` is memoized, no sequence of `id`/`restart` calls changes
it. -/
theorem lndNode_run_preserves_myid (i : PyStr) :
    ∀ (ops : List LndOp) (n : LndNode), n.myid = some i →
      (LndNode.run n ops).myid = some i := by
  intro ops
  induction ops with
  | nil => intro n h; exact h
  | cons op rest ih =>
      intro n h
      have hstep : (LndNode.step n op).myid = some i := by
        cases op with
        | callId info_id => simp [LndNode.step, LndNode.id, h]
        | callRestart restarted =>
            simpa [LndNode.step, LndNode.restart] using h
      simpa only [LndNode.run] using ih _ hstep

/-- With `myid` memoized, `id()` answers the memoized value. -/
theorem lndNode_id_of_memoized (m : LndNode) (i info : PyStr)
    (h : m.myid = some i) : (LndNode.id m info).1 = i := by
  simp [LndNode.id, h]

/-- What `watch_queue_loop` forwards: exactly the queue elements not yet
seen. -/
theorem mem_watch_queue_loop (a : Bytes) :
    ∀ (l seen : List Bytes),
      a ∈ watch_queue_loop seen l ↔ a ∈ l ∧ a ∉ seen := by
  intro l
  induction l with
  | nil => intro seen; simp [watch_queue_loop]
  | cons e rest ih =>
      intro seen
      by_cases he : e ∈ seen
      · simp only [watch_queue_loop, if_pos he, ih, List.mem_cons]
        constructor
        · rintro ⟨h1, h2⟩
          exact ⟨Or.inr h1, h2⟩
        · rintro ⟨rfl | h1, h2⟩
          · exact absurd he h2
          · exact ⟨h1, h2⟩
      · simp only [watch_queue_loop, if_neg he, List.mem_cons, ih]
        constructor
        · rintro (rfl | ⟨h1, h2⟩)
          · exact ⟨Or.inl rfl, he⟩
          · exact ⟨Or.inr h1, fun hs => h2 (Or.inr hs)⟩
        · rintro ⟨rfl | h1, h2⟩
          · exact Or.inl rfl
          · by_cases hae : a = e
            · exact Or.inl hae
            · exact Or.inr ⟨h1, fun hc => hc.elim hae h2⟩

/-- `watch_queue_loop` forwards events in arrival order: its output is a
sublist of its input. -/
theorem watch_queue_loop_sublist :
    ∀ (l seen : List Bytes), List.Sublist (watch_queue_loop seen l) l := by
  intro l
  induction l with
  | nil => intro seen; simp [watch_queue_loop]
  | cons e rest ih =>
      intro seen
      by_cases he : e ∈ seen
      · simpa only [watch_queue_loop, if_pos he] using (ih seen).cons e
      · simpa only [watch_queue_loop, if_neg he] using (ih (e :: seen)).cons₂ e

/-- `watch_queue_loop` never forwards the same event twice. -/
theorem watch_queue_loop_nodup :
    ∀ (l seen : List Bytes), (watch_queue_loop seen l).Nodup := by
  intro l
  induction l with
  | nil => intro seen; simp [watch_queue_loop]
  | cons e rest ih =>
      intro seen
      by_cases he : e ∈ seen
      · simpa only [watch_queue_loop, if_pos he] using ih seen
      · simp only [watch_queue_loop, if_neg he, List.nodup_cons]
        refine ⟨fun hmem => ?_, ih (e :: seen)⟩
        exact ((mem_watch_queue_loop e rest (e :: seen)).mp hmem).2
          (List.mem_cons_self _ _)

/-! ### Claim theorems -/

/-- C1: once `id()` has resolved a `NodeHandle`'s identity for the first
time, every subsequent `id()` call returns the identical value, through any
sequence of further `id()`/`restart()` calls; and `ElectrumNode.restart`
(which rebuilds the daemon over the same ElectrumX directory) leaves the
handle's identity unchanged. -/
theorem C1_identity_stable_after_restart (n0 : LndNode)
    (h0 : n0.myid = none) (info0 : PyStr) (ops : List LndOp)
    (later_info : PyStr) (walletOf : Nat → Bytes) (en : ElectrumNode)
    (hen : en.daemon.directory = en.electrumx_directory) :
    (LndNode.id (LndNode.run (LndNode.id n0 info0).2 ops) later_info).1 =
        (LndNode.id n0 info0).1 ∧
      ElectrumNode.id walletOf (ElectrumNode.restart en) =
        ElectrumNode.id walletOf en := by
  constructor
  · have h1 : (LndNode.id n0 info0).2.myid = some info0 := by
      simp [LndNode.id, h0]
    have h2 := lndNode_run_preserves_myid info0 ops _ h1
    have h3 : (LndNode.id n0 info0).1 = info0 := by
      simp [LndNode.id, h0]
    rw [lndNode_id_of_memoized _ _ later_info h2, h3]
  · simp [ElectrumNode.id, ElectrumNode.restart, hen]

/-- Witness for C1 at a concrete handle: first resolution to id `[1]`,
then a restart and a further `id()` call against a daemon now reporting
`[2]`; the handle still answers `[1]`. -/
theorem C1_identity_stable_after_restart_witness :
    (LndNode.id
        (LndNode.run (LndNode.id ⟨none, ⟨7⟩⟩ [1]).2
          [LndOp.callRestart ⟨8⟩, LndOp.callId [2]]) [3]).1 =
      (LndNode.id ⟨none, ⟨7⟩⟩ [1]).1 ∧
    ElectrumNode.id (fun d => [d]) (ElectrumNode.restart ⟨4, 5, ⟨4, 5⟩⟩) =
      ElectrumNode.id (fun d => [d]) ⟨4, 5, ⟨4, 5⟩⟩ :=
  C1_identity_stable_after_restart ⟨none, ⟨7⟩⟩ rfl [1]
    [LndOp.callRestart ⟨8⟩, LndOp.callId [2]] [3] (fun d => [d])
    ⟨4, 5, ⟨4, 5⟩⟩ rfl

/-- C2: `ElectrumNode.openchannel` returns the
`(fundingTxId, csvDelay)` pair, but `LndNode.openchannel` falls off the
end of the function and returns Python `None` for every connected peer —
never a pair — contradicting both the claim and the unpacking at
test.py:219. -/
theorem C2_openchannel_return_value (peer_pubkeys : List PyStr)
    (node_id : PyStr) (satoshis : Nat) (hpeer : node_id ∈ peer_pubkeys)
    (c : Chan) (rest : List Chan) (hc : c.node_id = bytesFromHex node_id) :
    LndNode.openchannel peer_pubkeys node_id satoshis = Except.ok none ∧
    (∀ p : PyStr × Nat,
      LndNode.openchannel peer_pubkeys node_id satoshis ≠
        Except.ok (some p)) ∧
    ElectrumNode.openchannel (c :: rest) node_id satoshis =
      Except.ok (some (c.funding_txid, c.to_self_delay)) := by
  refine ⟨?_, ?_, ?_⟩ <;>
    simp [LndNode.openchannel, ElectrumNode.openchannel, ElectrumNode.chan,
      hpeer, hc]

/-- Witness for C2: lnd returns `None` for the connected peer `[0, 2]`,
while electrum returns the pair for its channel with that remote. -/
theorem C2_openchannel_return_value_witness :
    LndNode.openchannel [[0, 2]] [0, 2] 1000 = Except.ok none ∧
    (∀ p : PyStr × Nat,
      LndNode.openchannel [[0, 2]] [0, 2] 1000 ≠ Except.ok (some p)) ∧
    ElectrumNode.openchannel
        [{ node_id := [2], to_self_delay := 144, funding_txid := [10],
           state := "OPEN" }] [0, 2] 1000 =
      Except.ok (some ([10], 144)) :=
  C2_openchannel_return_value [[0, 2]] [0, 2] 1000 (by decide)
    { node_id := [2], to_self_delay := 144, funding_txid := [10],
      state := "OPEN" } [] (by decide)

/-- C3 counterexample: the electrum node holds exactly one channel, with
remote pubkey `0x01`; `check_channel` for the distinct remote `0x02` (hex
string `[0, 2]`) does not return `false` — the `assert` inside `chan`
raises `AssertionError`, which `check_channel` only shields against
`StopIteration`. -/
theorem C3_check_channel_counterexample :
    ElectrumNode.check_channel
        [{ node_id := [1], to_self_delay := 144, funding_txid := [10],
           state := "OPEN" }] [0, 2] =
      Except.error PyErr.assertionError := by
  rfl

/-- C3 amended: `check_channel` returns `false` without raising when the
adapter sees no channel at all (electrum's channel map is empty, so `chan`
raises `StopIteration`, which is caught) or, for lnd, when no listed
channel is keyed by the remote's pubkey; but when the electrum node's
first channel is with a different remote, the uncaught `AssertionError`
from `chan` propagates instead of yielding `false`. -/
theorem C3_check_channel_amended (remote_id : PyStr)
    (channels : List LndChannel)
    (hnone : ∀ c ∈ channels, c.remote_pubkey ≠ remote_id)
    (c : Chan) (rest : List Chan)
    (hc : c.node_id ≠ bytesFromHex remote_id) :
    ElectrumNode.check_channel [] remote_id = Except.ok false ∧
    LndNode.check_channel channels remote_id = false ∧
    ElectrumNode.check_channel (c :: rest) remote_id =
      Except.error PyErr.assertionError := by
  refine ⟨rfl, ?_, ?_⟩
  · have hfind : LndNode.channel_with_remote channels remote_id = none := by
      rw [LndNode.channel_with_remote, List.find?_eq_none]
      intro x hx
      simpa using hnone x (List.mem_reverse.mp hx)
    simp [LndNode.check_channel, hfind]
  · simp [ElectrumNode.check_channel, ElectrumNode.chan, hc]

/-- Witness for C3 amended: no channels at all, an lnd channel list keyed
by a different remote, and an electrum channel list headed by a foreign
channel. -/
theorem C3_check_channel_amended_witness :
    ElectrumNode.check_channel [] [0, 2] = Except.ok false ∧
    LndNode.check_channel [{ remote_pubkey := [0, 3], active := true }]
        [0, 2] = false ∧
    ElectrumNode.check_channel
        [{ node_id := [1], to_self_delay := 144, funding_txid := [10],
           state := "OPEN" }] [0, 2] =
      Except.error PyErr.assertionError :=
  C3_check_channel_amended [0, 2]
    [{ remote_pubkey := [0, 3], active := true }] (by decide)
    { node_id := [1], to_self_delay := 144, funding_txid := [10],
      state := "OPEN" } [] (by decide)

/-- C4 counterexample: a predicate that raises is not treated like one
that returns `false`.  With timeout 30 and interval 7, an always-raising
predicate makes `wait_for` propagate the `rpcError` on the very first
invocation, while an always-false predicate is retried until the timeout
path raises `ValueError`; `generate_until` likewise propagates the
predicate's error immediately. -/
theorem C4_polling_counterexample :
    wait_for (fun _ => Except.error PyErr.rpcError) 30 7 =
        Except.error PyErr.rpcError ∧
      wait_for (fun _ => Except.ok false) 30 7 =
        Except.error PyErr.valueError ∧
      generate_until (fun _ => Except.error PyErr.rpcError) 30 =
        Except.error PyErr.rpcError := by
  refine ⟨rfl, rfl, rfl⟩

/-- C4 amended: an invocation of the predicate that raises makes
`wait_for` and `generate_until` propagate that error out immediately —
there is no `try`/`except` around the predicate call — so only a `false`
return causes a retry. -/
theorem C4_polling_error_propagates (success : Nat → Except PyErr Bool)
    (e : PyErr) (h : success 0 = Except.error e)
    (timeout interval blocks : Nat) :
    wait_for success timeout interval = Except.error e ∧
    generate_until success blocks = Except.error e := by
  constructor
  · unfold wait_for wait_for_loop
    rw [h]
  · cases blocks <;> · unfold generate_until generate_until_loop; rw [h]

/-- Witness for C4 amended: a predicate raising `rpcError` at its first
invocation. -/
theorem C4_polling_error_propagates_witness :
    wait_for (fun _ => Except.error PyErr.rpcError) 30 1 =
        Except.error PyErr.rpcError ∧
      generate_until (fun _ => Except.error PyErr.rpcError) 30 =
        Except.error PyErr.rpcError :=
  C4_polling_error_propagates (fun _ => Except.error PyErr.rpcError)
    PyErr.rpcError rfl 30 1 30

/-- C5: `ElectrumNode.getnodes` never returns the vertex set — it raises
`KeyError` on every input, because `nodes.remove` is handed the node's raw
`bytes` pubkey while the set holds `bh2u` hex strings, and a Python `str`
never equals a `bytes`; `LndNode.getnodes` does exclude the node's own id
as the claim and electrum's own docstring state. -/
theorem C5_getnodes_raises_keyerror (channel_infos : List ChannelInfo)
    (node_keypair_pubkey : Bytes) (graph_node_pubkeys : List PyStr)
    (self_id : PyStr) :
    ElectrumNode.getnodes channel_infos node_keypair_pubkey =
        Except.error PyErr.keyError ∧
      self_id ∉ LndNode.getnodes graph_node_pubkeys self_id := by
  constructor
  · have h : PyObj.pybytes node_keypair_pubkey ∉
        electrumGossipNodes channel_infos := by
      intro hmem
      obtain ⟨s, hs⟩ :=
        mem_electrumGossipNodes_pystr channel_infos _ hmem
      cases hs
    simp [ElectrumNode.getnodes, pysetRemove, h]
  · simp [LndNode.getnodes]

/-- C6: `ping` never raises on either adapter: lnd's returns `true`
exactly when the `GetInfo` transport call succeeded and `false` on any
error, and electrum's returns `true` unconditionally. -/
theorem C6_ping_never_raises :
    (∀ getInfo : Except PyErr GetInfoResponse,
        ∃ b : Bool, LndNode.ping getInfo = Except.ok b) ∧
      (∀ r : GetInfoResponse, LndNode.ping (Except.ok r) = Except.ok true) ∧
      (∀ e : PyErr, LndNode.ping (Except.error e) = Except.ok false) ∧
      ElectrumNode.ping = Except.ok true := by
  refine ⟨?_, fun r => rfl, fun e => rfl, rfl⟩
  intro getInfo
  cases getInfo <;> exact ⟨_, rfl⟩

/-- C7: the `watch_queue` coroutine forwards the broadcast sequence to the
FIFO queue as a sublist (broadcast order preserved, so no later event is
delivered before an earlier distinct one), without duplicates, containing
exactly the broadcast transactions; `get_published_e_tx` then pops the
queue front. -/
theorem C7_events_ordered_dedup (tx_queue : List Bytes) :
    List.Sublist (ElectrumNode.watch_queue tx_queue) tx_queue ∧
      (ElectrumNode.watch_queue tx_queue).Nodup ∧
      (∀ a : Bytes, a ∈ ElectrumNode.watch_queue tx_queue ↔ a ∈ tx_queue) ∧
      (∀ (e_tx : Bytes) (rest : List Bytes),
        ElectrumNode.get_published_e_tx (e_tx :: rest) =
          Except.ok (e_tx, rest)) := by
  refine ⟨watch_queue_loop_sublist tx_queue [],
    watch_queue_loop_nodup tx_queue [], fun a => ?_, fun e_tx rest => rfl⟩
  rw [ElectrumNode.watch_queue, mem_watch_queue_loop]
  simp

/-- C8: the `force_close` generator yields exactly two items in order —
the closing transaction id at position 0, the terminal `all_done` signal
at position 1, exhaustion from position 2 on — and no observation of
position 0 can ever be the terminal signal, whatever the two awaited
results are. -/
theorem C8_force_close_two_items (txid : PyStr) (b : Bool) :
    ElectrumNode.force_close (Except.ok txid) (Except.ok b) 0 =
        Except.ok (some (FCItem.closing_txid txid)) ∧
      ElectrumNode.force_close (Except.ok txid) (Except.ok b) 1 =
        Except.ok (some (FCItem.all_done b)) ∧
      (∀ n : Nat,
        ElectrumNode.force_close (Except.ok txid) (Except.ok b) (n + 2) =
          Except.ok none) ∧
      (∀ (close_result : Except PyErr PyStr)
        (all_done_result : Except PyErr Bool) (b' : Bool),
        ElectrumNode.force_close close_result all_done_result 0 ≠
          Except.ok (some (FCItem.all_done b'))) := by
  refine ⟨rfl, rfl, fun n => rfl, ?_⟩
  intro close_result all_done_result b' hcontra
  cases close_result <;> simp [ElectrumNode.force_close] at hcontra

/-- C9: both adapters' `getchannels` results are symmetric relations:
each gossip edge contributes both orientations, so `(x, y)` is a member
iff `(y, x)` is. -/
theorem C9_getchannels_symmetric :
    (∀ (channel_infos : List ChannelInfo) (x y : PyObj),
        (x, y) ∈ ElectrumNode.getchannels channel_infos ↔
          (y, x) ∈ ElectrumNode.getchannels channel_infos) ∧
      (∀ (edges : List LndEdge) (x y : PyStr),
        (x, y) ∈ LndNode.getchannels edges ↔
          (y, x) ∈ LndNode.getchannels edges) := by
  constructor
  · intro channel_infos x y
    induction channel_infos with
    | nil => simp [ElectrumNode.getchannels]
    | cons ci rest ih =>
        simp only [ElectrumNode.getchannels, Finset.mem_insert,
          Prod.mk.injEq, ih]
        tauto
  · intro edges x y
    induction edges with
    | nil => simp [LndNode.getchannels]
    | cons e rest ih =>
        simp only [LndNode.getchannels, List.mem_cons, Prod.mk.injEq, ih]
        tauto

/-- C10 counterexample: a wallet whose fresh unused address carries the
balance triple `(5, -5, 0)` — a nonzero matured balance offset by a
negative unconfirmed delta — passes the `assert matured + unconfirmed +
unmatured == 0` check, so `addfunds` contacts the chain oracle instead of
raising. -/
theorem C10_addfunds_counterexample :
    ElectrumNode.addfunds
        { unused_address := some 0, addr_balance := fun _ => (5, -5, 0) }
        1000 =
      (none, [ChainOp.sendtoaddress 0 1000, ChainOp.generate 1]) ∧
    ((5 : Int), (-5 : Int), (0 : Int)) ≠ ((0 : Int), (0 : Int), (0 : Int)) := by
  exact ⟨rfl, by decide⟩

/-- C10 amended: `addfunds` requires an unused address whose three
balances sum to zero; when no unused address exists or the sum is nonzero
it raises `AssertionError` before any chain-oracle call (no
`sendtoaddress`/`generate` is issued), and when the sum is zero it pays
the address and mines one block. -/
theorem C10_addfunds_amended (wallet : ElectrumWallet) (satoshis : Nat) :
    (wallet.unused_address = none →
      ElectrumNode.addfunds wallet satoshis =
        (some PyErr.assertionError, [])) ∧
    (∀ (addr : Nat) (matured unconfirmed unmatured : Int),
      wallet.unused_address = some addr →
      wallet.addr_balance addr = (matured, unconfirmed, unmatured) →
      matured + unconfirmed + unmatured ≠ 0 →
      ElectrumNode.addfunds wallet satoshis =
        (some PyErr.assertionError, [])) ∧
    (∀ (addr : Nat) (matured unconfirmed unmatured : Int),
      wallet.unused_address = some addr →
      wallet.addr_balance addr = (matured, unconfirmed, unmatured) →
      matured + unconfirmed + unmatured = 0 →
      ElectrumNode.addfunds wallet satoshis =
        (none, [ChainOp.sendtoaddress addr satoshis, ChainOp.generate 1])) := by
  refine ⟨?_, ?_, ?_⟩
  · intro h
    simp [ElectrumNode.addfunds, h]
  · intro addr matured unconfirmed unmatured ha hb hsum
    simp [ElectrumNode.addfunds, ha, hb, hsum]
  · intro addr matured unconfirmed unmatured ha hb hsum
    simp [ElectrumNode.addfunds, ha, hb, hsum]

/-- Witness for C10 amended: a wallet without any unused address raises
the assertion with no chain-oracle calls made. -/
theorem C10_addfunds_amended_witness :
    ElectrumNode.addfunds
        { unused_address := none, addr_balance := fun _ => (0, 0, 0) } 7 =
      (some PyErr.assertionError, []) :=
  (C10_addfunds_amended
    { unused_address := none, addr_balance := fun _ => (0, 0, 0) } 7).1 rfl

end LightningIntegration
